import Mathlib

/-!
Verification of the core of `terraform-aws-module-cloudwatch-alarm-triage`:
a shallow embedding of the investigation orchestrator
(`src/lambda/bedrock_client.py`, `BedrockAgentClient.investigate_with_tools`
together with its inner `execute_tool`) and of the sandboxed execution engine
(`src/tool-lambda/tool_handler.py`, `remove_imports` and
`execute_python_code`), followed by theorems settling the frozen claims.

Python strings are modelled as `List Char` (`Str`), Python's `time.time()`
as an abstract monotone counter, the Bedrock Converse call and the remote
tool Lambda as oracles indexed by call number, and the CPython interpreter
underneath `exec` as a behaviour oracle.  Apostrophes and braces inside
string literals are written with `\x27`, `\x7b`, `\x7d` escapes.
-/

/-- Python strings, modelled as lists of characters. -/
abbrev Str := List Char

/-- Coerce a Lean string literal to the `Str` model. -/
def lit (s : String) : Str := s.toList

/-- The ASCII whitespace characters recognised by Python's `str.strip()`
and by the regex class `\s` (the inputs of interest are ASCII). -/
def isPySpace (c : Char) : Bool :=
  c == ' ' || c == '\t' || c == '\n' || c == '\r' || c == '\x0b' || c == '\x0c'

/-- Python `str.strip()`: drop leading and trailing whitespace. -/
def pyStrip (s : Str) : Str :=
  ((s.dropWhile isPySpace).reverse.dropWhile isPySpace).reverse

/-- Python `str.lower()` (ASCII). -/
def pyLower (s : Str) : Str := s.map Char.toLower

/-- Python `str.upper()` (ASCII). -/
def pyUpper (s : Str) : Str := s.map Char.toUpper

/-- Python `str.split('\n')`: always returns at least one piece. -/
def splitNl : Str → List Str
  | [] => [[]]
  | c :: rest =>
    if c = '\n' then [] :: splitNl rest
    else
      match splitNl rest with
      | [] => [[c]]
      | h :: t => (c :: h) :: t

/-- Index of the first occurrence of `pat` in `s` (Python `str.find` /
the start position chosen by a leftmost regex match on a literal). -/
def findSub (pat : Str) : Str → Option Nat
  | [] => if pat.isPrefixOf ([] : Str) then some 0 else none
  | c :: t =>
    if pat.isPrefixOf (c :: t) then some 0
    else (findSub pat t).map (· + 1)

/-- Python's `in` operator on strings: does `pat` occur in `hay`? -/
def pyContains (hay pat : Str) : Bool := (findSub pat hay).isSome

/-- Least `j < n` with `p j = true`, if any. -/
def firstIdx (p : Nat → Bool) : Nat → Option Nat
  | 0 => none
  | n + 1 =>
    match firstIdx p n with
    | some j => some j
    | none => if p n then some n else none

/-! ## Execution engine: `src/tool-lambda/tool_handler.py` -/

/-- One alias of a Python import statement (`ast.alias`). -/
structure ImportAlias where
  name : Str
  asname : Option Str
deriving DecidableEq

/-- A top-level Python statement as seen by `remove_imports`: an
`ast.Import`, an `ast.ImportFrom`, or any other statement (kept opaque,
carrying its `ast.unparse` text). -/
inductive PyStmt where
  | imp (names : List ImportAlias)
  | impFrom (module : Option Str) (names : List ImportAlias) (level : Nat)
  | other (src : Str)
deriving DecidableEq

/-- A parsed Python module (`ast.Module`): its top-level statement list. -/
structure PyModule where
  body : List PyStmt
deriving DecidableEq

/-- Is the statement an import node (`isinstance(node, (ast.Import, ast.ImportFrom))`)? -/
def PyStmt.isImportNode : PyStmt → Bool
  | .imp _ => true
  | .impFrom _ _ _ => true
  | .other _ => false

/-- Number of alias names carried by a statement (0 for non-imports). -/
def PyStmt.numNames : PyStmt → Nat
  | .imp names => names.length
  | .impFrom _ names _ => names.length
  | .other _ => 0

/-- The human-readable removal entries appended for one statement
(tool_handler.py lines 111-121): one entry per alias. -/
def removedEntriesOf : PyStmt → List Str
  | .imp names => names.map (fun a => lit "import " ++ a.name)
  | .impFrom module names level =>
    names.map (fun a =>
      if level > 0 then
        lit "from " ++ List.replicate level '.' ++ module.getD [] ++ lit " import " ++ a.name
      else
        lit "from " ++ module.getD [] ++ lit " import " ++ a.name)
  | .other _ => []

/-- `ast.unparse` of a single statement, for the statement shapes the
model distinguishes (import statements re-render their aliases; any other
statement carries its own unparse text). -/
def unparseStmt : PyStmt → Str
  | .imp names =>
    lit "import " ++ List.intercalate (lit ", ") (names.map (fun a =>
      a.name ++ (match a.asname with | none => [] | some n => lit " as " ++ n)))
  | .impFrom module names level =>
    lit "from " ++ List.replicate level '.' ++ module.getD [] ++ lit " import " ++
      List.intercalate (lit ", ") (names.map (fun a =>
        a.name ++ (match a.asname with | none => [] | some n => lit " as " ++ n)))
  | .other src => src

/-- `ast.unparse` of a module: statements joined by newlines. -/
def unparseModule (m : PyModule) : Str :=
  List.intercalate (lit "\n") (m.body.map unparseStmt)

/-- `remove_imports` (tool_handler.py lines 95-133).  `parse` is the result
of `ast.parse(code)`: `none` models a `SyntaxError`, in which case the
original text and an empty removal list are returned; otherwise the import
nodes are collected (one entry per alias), filtered out of the body, and
the remainder is re-serialized. -/
def remove_imports (parse : Option PyModule) (code : Str) : Str × List Str :=
  match parse with
  | none => (code, [])
  | some tree =>
    let removed := tree.body.flatMap removedEntriesOf
    let newBody := tree.body.filter (fun node => !node.isImportNode)
    (unparseModule ⟨newBody⟩, removed)

/-- The ambient interpreter stdio state (`sys.stdout` / `sys.stderr`),
as abstract stream identifiers. -/
structure Stdio where
  out : Nat
  err : Nat
deriving DecidableEq

/-- The value left in the designated `result` variable by the executed
code: either a mapping/sequence (carrying its `json.dumps` rendering) or a
scalar (carrying its `str()` rendering). -/
inductive PyVal where
  | collection (dump : Str)
  | scalar (text : Str)
deriving DecidableEq

/-- `str()`/`json.dumps` serialization of the result variable
(tool_handler.py lines 332-338). -/
def serializeResult : PyVal → Str
  | .collection dump => dump
  | .scalar text => text

/-- What `exec(cleaned_code, namespace)` does, as an oracle: run to
completion (with captured stdout/stderr text and an optional `result`
value), raise an `Exception` (message, traceback text, partial output), or
raise an interpreter-level anomaly not caught by `except Exception`
(e.g. `SystemExit`), also with partial output. -/
inductive ExecBeh where
  | normal (printedOut printedErr : Str) (resultVal : Option PyVal)
  | exn (msg tb : Str) (printedOut printedErr : Str)
  | anomaly (printedOut printedErr : Str)

/-- Wall-clock durations of the engine's internal phases, abstracting
`time.time()` differences: the `remove_imports` parse, namespace
construction, `exec`, and result serialization. -/
structure Durations where
  dParse : Nat
  dNs : Nat
  dExec : Nat
  dSer : Nat

/-- The structured execution outcome (tool_handler.py lines 341-347 and
375-381). -/
structure Outcome where
  result : Option Str
  stdout : Str
  stderr : Str
  execution_time : Nat
  success : Bool
deriving DecidableEq

/-- The informational notice prepended to stdout when imports were
stripped (tool_handler.py lines 154-159). -/
def importNotice (removed : List Str) : Str :=
  if removed = [] then []
  else
    lit "Note: Removed " ++ (toString removed.length).toList ++
      lit " import statement(s) for compatibility:\n" ++
      (removed.map (fun imp => lit "  - " ++ imp ++ lit "\n")).flatten ++
      lit "All required modules are pre-imported.\n\n"

/-- The error text built in the `except Exception` arm
(tool_handler.py lines 358-361). -/
def execErrorText (msg tb : Str) : Str :=
  if pyContains msg (lit "__import__") ∧ pyContains msg (lit "not found") then
    lit "Error executing Python code: " ++ msg ++
      lit "\nNote: Modules are pre-imported. You don\x27t need to use import statements. Use the modules directly (e.g., boto3.client(\x27s3\x27) instead of \x27import boto3\x27)."
  else
    lit "Error executing Python code: " ++ msg ++
      lit "\nTraceback (most recent call last):\n" ++ tb

/-- `execute_python_code` (tool_handler.py lines 135-381), as a state
passing function over the ambient stdio and an abstract clock.
`parse` models `ast.parse(code)`, `beh` models what `exec` does on the
cleaned code, `dur` the phase durations, `capOut`/`capErr` the fresh
in-memory capture buffers, `w` the ambient stdio on entry and `clk` the
clock on entry.  The returned `Except` is `.error` exactly when an
interpreter-level anomaly propagates past the function; the second
component is the ambient stdio state observed by the caller afterwards. -/
def execute_python_code (parse : Option PyModule) (code : Str) (beh : ExecBeh)
    (dur : Durations) (capOut capErr : Nat) (w : Stdio) (clk : Nat) :
    Except Str Outcome × Stdio :=
  -- start_time = time.time()  (line 148, BEFORE remove_imports)
  let start_time := clk
  let clk := clk + dur.dParse
  let rmv := remove_imports parse code
  let import_notice := importNotice rmv.2
  -- namespace construction (lines 166-308)
  let clk := clk + dur.dNs
  -- old_stdout/old_stderr saved, stdio redirected to capture buffers (lines 311-316)
  let old_stdout := w.out
  let old_stderr := w.err
  let _wRedirected : Stdio := ⟨capOut, capErr⟩
  -- exec(cleaned_code, namespace) (line 320)
  let clk := clk + dur.dExec
  match beh with
  | .normal pOut pErr resultVal =>
    -- restore stdout/stderr (lines 323-324)
    let _wRestored : Stdio := ⟨old_stdout, old_stderr⟩
    -- execution_time measured before serialization (line 326)
    let execution_time := clk - start_time
    let result_str := resultVal.map serializeResult
    let _clk := clk + dur.dSer
    -- the finally block restores again (lines 349-352), idempotently
    let w : Stdio := ⟨old_stdout, old_stderr⟩
    (.ok { result := result_str
           stdout := import_notice ++ pOut
           stderr := pErr
           execution_time := execution_time
           success := true }, w)
  | .exn msg tb pOut pErr =>
    -- the finally block restores (lines 349-352), then except Exception runs
    let w : Stdio := ⟨old_stdout, old_stderr⟩
    let execution_time := clk - start_time
    let error_msg := execErrorText msg tb
    (.ok { result := none
           stdout := import_notice ++ pOut
           stderr := pErr ++ error_msg
           execution_time := execution_time
           success := false }, w)
  | .anomaly _pOut _pErr =>
    -- the finally block restores; except Exception does not catch, so the
    -- anomaly propagates to the caller
    let w : Stdio := ⟨old_stdout, old_stderr⟩
    (.error (lit "anomaly"), w)

/-! ## Investigation orchestrator: `src/lambda/bedrock_client.py` -/

/-- A Bedrock call failure: `str(e)` and `type(e).__name__`. -/
structure ErrorInfo where
  errorStr : Str
  errorType : Str
deriving DecidableEq

/-- What one `bedrock.converse` attempt does: return a response text or
raise. An oracle indexed by attempt number supplies these. -/
inductive LLMResult where
  | ok (text : Str)
  | err (e : ErrorInfo)

/-- The body dictionary parsed from the tool Lambda response: only the
`success` and `output` keys are ever read, each possibly absent. -/
structure ToolBody where
  success : Option Bool
  output : Option Str
deriving DecidableEq

/-- What one `lambda_client.invoke` round does: raise a transport/JSON
exception, or return a status code with a parsed body.  An oracle indexed
by dispatch number supplies these. -/
inductive ToolDispatch where
  | exn (msg : Str)
  | resp (status : Nat) (body : ToolBody)

/-- A conversation message (role + text). -/
structure ChatMessage where
  role : Str
  content : Str
deriving DecidableEq

/-- An audit-trail entry of `full_context` (bedrock_client.py lines
132-136, 196-201, 227-232), with `time.time()` modelled as an abstract
counter `ts`. -/
inductive CtxEntry where
  | promptEntry (content : Str) (ts : Nat)
  | modelResponse (content : Str) (ts : Nat) (iteration : Nat)
  | toolExecution (input : Str) (output : ToolBody) (ts : Nat)
deriving DecidableEq

/-- A truncated summary record appended to `tool_calls`
(bedrock_client.py lines 51-54): `input` models the `command` value of
the `{'input': {'command': ...}}` dictionary. -/
structure ToolCallRecord where
  input : Str
  output : Str
deriving DecidableEq

/-- Retryability test (bedrock_client.py lines 163-167). -/
def isRetryable (e : ErrorInfo) : Bool :=
  pyContains e.errorStr (lit "ThrottlingException") ||
  pyContains e.errorStr (lit "ServiceQuotaExceededException") ||
  pyContains e.errorStr (lit "Read timeout on endpoint") ||
  pyContains e.errorStr (lit "ReadTimeoutError") ||
  e.errorType = lit "ReadTimeoutError"

/-- Timeout-class test selecting the linear backoff branch
(bedrock_client.py line 170). -/
def isTimeoutClass (e : ErrorInfo) : Bool :=
  pyContains (pyLower e.errorStr) (lit "timeout") || e.errorType = lit "ReadTimeoutError"

/-- `max_retries` (bedrock_client.py line 142). -/
def maxRetries : Nat := 3

/-- `max_iterations` (bedrock_client.py line 139). -/
def maxIterations : Nat := 100

/-- Is the dispatch-time model id a Nova model (bedrock_client.py line 145)? -/
def isNova (modelId : Str) : Bool := pyContains (pyLower modelId) (lit "nova")

/-- Leading tool-directive test (bedrock_client.py lines 204-205): the
first line of the stripped response, itself stripped and upper-cased,
starts with the marker. -/
def isDirective (text : Str) : Bool :=
  match splitNl (pyStrip text) with
  | [] => false
  | l0 :: _ => (lit "TOOL: PYTHON_EXECUTOR").isPrefixOf (pyUpper (pyStrip l0))

/-- Code extraction, `re.search(r'```python\n(.*?)\n```', text, re.DOTALL)`
followed by `.group(1).strip()` (bedrock_client.py lines 207-209): the
leftmost occurrence of the opening fence, then the earliest closing fence
after it (non-greedy), then strip. -/
def extractCode (text : Str) : Option Str :=
  match findSub (lit "```python\n") text with
  | none => none
  | some p =>
    match findSub (lit "\n```") (text.drop (p + 10)) with
    | none => none
    | some d => some (pyStrip ((text.drop (p + 10)).take d))

/-- Existence of a match of the regex tail `\s*\n```python.*?```.*$`
(with DOTALL and IGNORECASE, evaluated on a lower-cased string): consume
whitespace; at each newline, accept if the lower-cased opening fence
follows and a closing triple backtick occurs somewhere after it. -/
def trailTail : Str → Bool
  | [] => false
  | c :: rest =>
    (c == '\n' && (lit "```python").isPrefixOf rest && pyContains (rest.drop 9) (lit "```"))
    || (isPySpace c && trailTail rest)

/-- Match of `TOOL:\s*python_executor\s*\n```python.*?```.*$` starting at
position `j` of the lower-cased response. -/
def trailAt (t : Str) (j : Nat) : Bool :=
  (lit "tool:").isPrefixOf (t.drop j) &&
  (let r2 := (t.drop (j + 5)).dropWhile isPySpace
   (lit "python_executor").isPrefixOf r2 && trailTail (r2.drop 15))

/-- Length of the maximal run of newlines immediately before position `j`
(matched by the leading `\n*` of the trailing-directive pattern). -/
def nlRunBefore (s : Str) (j : Nat) : Nat :=
  ((s.take j).reverse.takeWhile (fun c => c == '\n')).length

/-- Start position of the leftmost match of the trailing-directive
pattern `\n*TOOL:\s*python_executor\s*\n```python.*?```.*$` under
`re.DOTALL | re.IGNORECASE`, if any (bedrock_client.py lines 264-265). -/
def findTrail (s : Str) : Option Nat :=
  (firstIdx (fun j => trailAt (pyLower s) j) s.length).map (fun j => j - nlRunBefore s j)

/-- `re.sub(tool_pattern, '', final_response, flags=re.DOTALL|re.IGNORECASE)`:
the match always extends to the end of the string, so substitution keeps
the prefix before the leftmost match start. -/
def reSubTrail (s : Str) : Str :=
  match findTrail s with
  | none => s
  | some i => s.take i

/-- The final-response cleanup (bedrock_client.py lines 260-269): apply
the substitution; if anything changed, strip the result. -/
def cleanResponse (s : Str) : Str :=
  let cleaned := reSubTrail s
  if cleaned = s then s else pyStrip cleaned

/-- The fixed text surrounding the caller prompt in `tool_prompt`
(bedrock_client.py lines 67-121), up to the `{prompt}` interpolation. -/
def toolPromptPre : Str := lit "You have access to a Python execution tool for investigating AWS resources.\n\n## CRITICAL TOOL USAGE RULES\n\nTo execute Python code, your response MUST follow this EXACT format:\n\n1. **First line must be**: TOOL: python_executor\n2. **Next line must start the code block**: ```python\n3. **Then your code**\n4. **End with**: ```\n5. **Nothing else in that response**\n\nCORRECT example:\nTOOL: python_executor\n```python\nlogs = boto3.client(\x27logs\x27, region_name=\x27us-east-2\x27)\nresponse = logs.describe_log_streams(\n    logGroupName=\x27/aws/lambda/my-function\x27,\n    orderBy=\x27LastEventTime\x27,\n    descending=True,\n    limit=5\n)\nprint(f\"Found \x7blen(response[\x27logStreams\x27])\x7d log streams\")\nresult = response\n```\n\n## AVAILABLE MODULES (pre-imported, DO NOT import)\nboto3, json, datetime, time, collections, re, os, sys, math, statistics, \nrandom, itertools, functools, copy, hashlib, urllib, uuid, base64, gzip, zlib\n\nIMPORTANT: \x27datetime\x27 is the full module. Use: datetime.datetime(2025, 1, 1) or datetime.timedelta(days=1)\nVariables do NOT persist between tool calls. Each execution is independent.\n\n## INVESTIGATION WORKFLOW\n\n1. **Start investigating immediately** - Use tools to gather real data\n2. **Continue until you have enough data** - Multiple tool calls are expected\n3. **Then provide your final analysis** - Starting with ### means NO MORE TOOLS\n\n## CRITICAL RULES\n- You MUST investigate FIRST using tools, THEN provide analysis\n- Do NOT skip investigation and provide a report\n- Do NOT append tool calls after starting your final report\n- When you start your response with ###, that is your FINAL response - no tools after that\n\n## TOOL EXECUTION NOTES\n- Use print() liberally to show investigation progress\n- Set \x27result\x27 variable with key data to return\n- Each tool response can only execute one code block\n- After each tool result, decide: investigate more OR provide final analysis\n\n## YOUR TASK\n"

/-- The fixed text after the `{prompt}` interpolation in `tool_prompt`. -/
def toolPromptSuf : Str := lit "\n\nRemember: Investigate thoroughly with tools FIRST, then provide your analysis. Do not provide analysis without investigation."

/-- The tool-augmented initial prompt (bedrock_client.py lines 67-121). -/
def tool_prompt (prompt : Str) : Str := toolPromptPre ++ prompt ++ toolPromptSuf

/-- The corrective message appended after a malformed directive
(bedrock_client.py line 240). -/
def noCodeBlockText : Str :=
  lit "Tool call detected but no code block found. Please provide the code in a markdown code fence."

/-- The force-investigation message sent to Nova models that skip
investigation (bedrock_client.py line 254). -/
def forceInvestigateText : Str :=
  lit "You must investigate first using the Python tool. Start your response with \x27TOOL: python_executor\x27 and gather real data from AWS. Do not provide analysis without investigation."

/-- The default report used when the loop ends with no final response
(bedrock_client.py line 281). -/
def noAnalysisText : Str :=
  lit "Investigation completed but no analysis was generated."

/-- Text preceding `str(e)` in the fallback error report
(bedrock_client.py lines 290-295). -/
def errorReportPre : Str :=
  lit "\nInvestigation Error\n==================\n\nAn error occurred while invoking model for investigation:\n"

/-- Text following `str(e)` in the fallback error report
(bedrock_client.py lines 296-304). -/
def errorReportSuf : Str :=
  lit "\n\nPlease check the Lambda logs for more details.\n\nTroubleshooting Steps:\n1. Verify Bedrock model access in your region\n2. Check IAM permissions for Bedrock invocation\n3. Ensure the tool Lambda is properly configured\n4. Verify the configured Bedrock model is available in your region\n"

/-- The user message that feeds a tool outcome back to the model
(bedrock_client.py lines 216-219); Python renders the booleans as
`True`/`False`. -/
def toolResponseText (b : ToolBody) : Str :=
  lit "Tool execution result:\nSuccess: " ++
    (if b.success.getD false then lit "True" else lit "False") ++
    lit "\nOutput:\n" ++ b.output.getD (lit "No output")

/-- The inner `execute_tool` (bedrock_client.py lines 38-64), given the
dispatch outcome of this round's `lambda_client.invoke`: returns the body
handed back to the loop and, exactly on a 200-status round with a parsed
body, the truncated `ToolCallRecord` appended to `tool_calls`. -/
def execute_tool (d : ToolDispatch) (command : Str) : ToolBody × Option ToolCallRecord :=
  match d with
  | .exn msg =>
    ({ success := some false, output := some (lit "Tool execution error: " ++ msg) }, none)
  | .resp status body =>
    if status = 200 then
      (body, some { input := command.take 200
                    output := (body.output.getD (lit "No output")).take 500 })
    else
      ({ success := some false
         output := some (lit "Tool execution failed with status " ++ (toString status).toList) }, none)

/-- The mutable state of the investigation loop.  `messages`,
`full_context`, `iteration_count`, `retry_count` and `tool_calls` are the
source's locals; `toolIdx` counts tool dispatches (the oracle index);
`clock` models `time.time()`; `attempts`, `waits` and `dispatches` are
ghost observation traces (per LLM attempt: did it succeed; each retry
backoff wait in seconds; per dispatch: was a ToolCallRecord appended). -/
structure LoopState where
  messages : List ChatMessage
  full_context : List CtxEntry
  iteration_count : Nat
  retry_count : Nat
  tool_calls : List ToolCallRecord
  toolIdx : Nat
  clock : Nat
  attempts : List Bool
  waits : List Nat
  dispatches : List Bool

/-- Outcome of the `for iteration in range(max_iterations)` loop: a break
with the cleaned final response (or range exhaustion, with the initial
empty final response), or an exception propagating to the outer handler. -/
inductive LoopOut where
  | done (final : Str) (st : LoopState)
  | raised (e : ErrorInfo) (st : LoopState)

/-- The investigation loop (bedrock_client.py lines 147-272).  `fuel` is
the number of remaining `range(max_iterations)` values, `iter` the current
zero-based loop index; `llm` is indexed by attempt number and `tool` by
dispatch number. -/
def loop (mid : Str) (llm : Nat → LLMResult) (tool : Nat → ToolDispatch) :
    Nat → Nat → LoopState → LoopOut
  | 0, _, st => .done [] st
  | fuel + 1, iter, st =>
    -- iteration_count += 1 before the converse call (line 150)
    let st1 : LoopState := { st with iteration_count := st.iteration_count + 1 }
    match llm st1.attempts.length with
    | .err e =>
      let st2 : LoopState := { st1 with attempts := st1.attempts ++ [false] }
      if isRetryable e then
        let rc := st2.retry_count + 1
        if rc ≤ maxRetries then
          let w := if isTimeoutClass e then min (5 * rc) 20 else min (2 ^ rc) 30
          loop mid llm tool fuel (iter + 1)
            { st2 with retry_count := rc, waits := st2.waits ++ [w] }
        else
          .raised e { st2 with retry_count := rc }
      else
        .raised e st2
    | .ok text =>
      -- retry_count = 0 (line 158); append assistant message (190-193)
      -- and the model_response context entry (196-201)
      let st2 : LoopState :=
        { st1 with
          retry_count := 0
          attempts := st1.attempts ++ [true]
          messages := st1.messages ++ [⟨lit "assistant", text⟩]
          full_context := st1.full_context ++ [.modelResponse text st1.clock (iter + 1)]
          clock := st1.clock + 1 }
      if isDirective text then
        match extractCode text with
        | some code =>
          let et := execute_tool (tool st2.toolIdx) code
          let st3 : LoopState :=
            { st2 with
              toolIdx := st2.toolIdx + 1
              tool_calls := st2.tool_calls ++ et.2.toList
              dispatches := st2.dispatches ++ [et.2.isSome]
              messages := st2.messages ++ [⟨lit "user", toolResponseText et.1⟩] }
          let st4 : LoopState :=
            { st3 with
              full_context := st3.full_context ++ [.toolExecution code et.1 st3.clock]
              clock := st3.clock + 1 }
          loop mid llm tool fuel (iter + 1) st4
        | none =>
          loop mid llm tool fuel (iter + 1)
            { st2 with messages := st2.messages ++ [⟨lit "user", noCodeBlockText⟩] }
      else
        if isNova mid && st2.tool_calls.isEmpty && iter == 0 then
          -- lines 245-256: the response is appended a second time, then a
          -- forcing user message, and the loop continues
          loop mid llm tool fuel (iter + 1)
            { st2 with
              messages := st2.messages ++ [⟨lit "assistant", text⟩, ⟨lit "user", forceInvestigateText⟩] }
        else
          .done (cleanResponse text) st2

/-- The returned investigation dictionary (bedrock_client.py lines
280-285 and 306-311), extended with the ghost observation traces. -/
structure InvestigationResult where
  report : Str
  full_context : List CtxEntry
  iteration_count : Nat
  tool_calls : List ToolCallRecord
  attempts : List Bool
  waits : List Nat
  dispatches : List Bool

/-- The loop state carried by either loop outcome. -/
def stateOf : LoopOut → LoopState
  | .done _ st => st
  | .raised _ st => st

/-- The error of a `raised` outcome, if any. -/
def raisedInfo : LoopOut → Option ErrorInfo
  | .done _ _ => none
  | .raised e _ => some e

/-- The initial loop state (bedrock_client.py lines 34-36 and 124-136):
one user message and one `prompt` context entry holding `tool_prompt`. -/
def initState (prompt : Str) : LoopState :=
  { messages := [⟨lit "user", tool_prompt prompt⟩]
    full_context := [.promptEntry (tool_prompt prompt) 0]
    iteration_count := 0
    retry_count := 0
    tool_calls := []
    toolIdx := 0
    clock := 1
    attempts := []
    waits := []
    dispatches := [] }

/-- `investigate_with_tools` (bedrock_client.py lines 32-311): run the
loop; on normal completion return the report (default text when the final
response is empty) with the accumulated context; on an exception reaching
the outer handler return the fallback error report with an empty
`full_context` and the surviving `iteration_count`/`tool_calls` locals. -/
def investigate_with_tools (mid : Str) (llm : Nat → LLMResult)
    (tool : Nat → ToolDispatch) (prompt : Str) : InvestigationResult :=
  match loop mid llm tool maxIterations 0 (initState prompt) with
  | .done final st =>
    { report := if final = [] then noAnalysisText else final
      full_context := st.full_context
      iteration_count := st.iteration_count
      tool_calls := st.tool_calls
      attempts := st.attempts
      waits := st.waits
      dispatches := st.dispatches }
  | .raised e st =>
    { report := errorReportPre ++ e.errorStr ++ errorReportSuf
      full_context := []
      iteration_count := st.iteration_count
      tool_calls := st.tool_calls
      attempts := st.attempts
      waits := st.waits
      dispatches := st.dispatches }

/-! ## Helper lemmas -/

theorem removedEntriesOf_length (s : PyStmt) :
    (removedEntriesOf s).length = s.numNames := by
  cases s <;> simp [removedEntriesOf, PyStmt.numNames]

theorem flatMap_removedEntries_length (l : List PyStmt) :
    (l.flatMap removedEntriesOf).length = (l.map PyStmt.numNames).sum := by
  induction l with
  | nil => rfl
  | cons s t ih => simp [List.flatMap_cons, removedEntriesOf_length, ih]

theorem sum_map_ones (l : List PyStmt) (h : ∀ s ∈ l, s.numNames = 1) :
    (l.map PyStmt.numNames).sum = l.length := by
  induction l with
  | nil => rfl
  | cons s t ih =>
    simp only [List.map_cons, List.sum_cons, List.length_cons]
    rw [h s (by simp), ih (fun x hx => h x (by simp [hx]))]
    omega

theorem execErrorText_embeds (msg tb : Str) :
    ∃ a b, execErrorText msg tb = a ++ msg ++ b := by
  unfold execErrorText
  split
  · exact ⟨_, _, rfl⟩
  · refine ⟨lit "Error executing Python code: ",
      lit "\nTraceback (most recent call last):\n" ++ tb, ?_⟩
    simp [List.append_assoc]

/-- Projection used to observe the recorded elapsed time of an engine
call that did not propagate an anomaly. -/
def outcomeTimeOf (r : Except Str Outcome × Stdio) : Option Nat :=
  match r.1 with
  | .ok o => some o.execution_time
  | .error _ => none

/-! ## Claim C6 -/

/-- C6: for every code string, parse result, exec behaviour (normal
completion, an exception from the executed code, or an interpreter-level
anomaly), durations, capture buffers and initial clock, the ambient stdio
state observed by the engine's caller after `execute_python_code` equals
the state before the call. -/
theorem c6_execute_restores_stdio_on_all_paths (parse : Option PyModule)
    (code : Str) (beh : ExecBeh) (dur : Durations) (capOut capErr : Nat)
    (w : Stdio) (clk : Nat) :
    (execute_python_code parse code beh dur capOut capErr w clk).2 = w := by
  cases beh <;> rfl

/-! ## Claim C7 -/

/-- C7 counterexample: with an import-stripping parse of 3 time units,
namespace construction of 1, execution of 2 and serialization of 4, the
recorded `execution_time` is 6 = 3 + 1 + 2 (parse is included,
serialization is not), while the claimed coverage (namespace construction
+ execution + serialization only) would give 1 + 2 + 4 = 7. -/
theorem c7_counterexample_execution_time_includes_parse :
    outcomeTimeOf (execute_python_code (some ⟨[]⟩) (lit "x = 1")
        (.normal [] [] none) ⟨3, 1, 2, 4⟩ 10 11 ⟨0, 0⟩ 0) = some 6 ∧
      (6 : Nat) ≠ 1 + 2 + 4 := by
  constructor
  · rfl
  · decide

/-- C7 amended: the recorded `execution_time` covers the import-stripping
parse, namespace construction and execution (both on normal completion and
on an exception from the executed code), and excludes result
serialization; `start_time` is taken before `remove_imports` and the
second reading before the result is serialized. -/
theorem c7_amended_execution_time_covers_parse_namespace_exec
    (parse : Option PyModule) (code : Str) (dur : Durations)
    (capOut capErr : Nat) (w : Stdio) (clk : Nat)
    (pOut pErr : Str) (rv : Option PyVal) (msg tb : Str) :
    outcomeTimeOf (execute_python_code parse code (.normal pOut pErr rv)
        dur capOut capErr w clk) = some (dur.dParse + dur.dNs + dur.dExec) ∧
    outcomeTimeOf (execute_python_code parse code (.exn msg tb pOut pErr)
        dur capOut capErr w clk) = some (dur.dParse + dur.dNs + dur.dExec) := by
  constructor <;>
    · simp only [execute_python_code, outcomeTimeOf]
      congr 1
      omega

/-! ## Claim C8 -/

/-- C8 counterexample: the single statement `import a, b` is one top-level
statement of the module, yet `remove_imports` records two removal entries
(one per alias), so the removal-list count does not equal the statement
count. -/
theorem c8_counterexample_multi_name_import :
    (remove_imports (some ⟨[.imp [⟨lit "a", none⟩, ⟨lit "b", none⟩]]⟩)
        (lit "import a, b")).2.length = 2 ∧
    (PyModule.mk [.imp [⟨lit "a", none⟩, ⟨lit "b", none⟩]]).body.length = 1 ∧
    (2 : Nat) ≠ 1 := by
  refine ⟨rfl, rfl, by decide⟩

/-- C8 amended: for a module consisting only of top-level import
statements, the `remove_imports` output text is empty (hence contains no
`import`/`from...import` keyword), and the removal-list length equals the
total number of imported names (aliases) across those statements — which
coincides with the statement count exactly when every statement imports a
single name. -/
theorem c8_amended_removed_entries_count_names (m : PyModule) (code : Str)
    (h : ∀ s ∈ m.body, s.isImportNode = true) :
    (remove_imports (some m) code).1 = [] ∧
    pyContains (remove_imports (some m) code).1 (lit "import") = false ∧
    (remove_imports (some m) code).2.length = (m.body.map PyStmt.numNames).sum ∧
    ((∀ s ∈ m.body, s.numNames = 1) →
      (remove_imports (some m) code).2.length = m.body.length) := by
  have hfilter : m.body.filter (fun node => !node.isImportNode) = [] := by
    rw [List.filter_eq_nil_iff]
    intro s hs
    simp [h s hs]
  have h1 : (remove_imports (some m) code).1 = [] := by
    simp only [remove_imports, hfilter, unparseModule, List.map_nil]
    rfl
  have h2 : (remove_imports (some m) code).2.length = (m.body.map PyStmt.numNames).sum := by
    simp only [remove_imports]
    rw [flatMap_removedEntries_length]
  refine ⟨h1, ?_, h2, ?_⟩
  · rw [h1]; rfl
  · intro hone
    rw [h2, sum_map_ones m.body hone]

/-- Witness for C8 amended at the module of `import json`. -/
theorem c8_amended_witness :
    (∀ s ∈ (PyModule.mk [.imp [⟨lit "json", none⟩]]).body, s.isImportNode = true) ∧
    ((remove_imports (some ⟨[.imp [⟨lit "json", none⟩]]⟩) (lit "import json")).1 = [] ∧
     pyContains (remove_imports (some ⟨[.imp [⟨lit "json", none⟩]]⟩) (lit "import json")).1
       (lit "import") = false ∧
     (remove_imports (some ⟨[.imp [⟨lit "json", none⟩]]⟩) (lit "import json")).2.length =
       ((PyModule.mk [.imp [⟨lit "json", none⟩]]).body.map PyStmt.numNames).sum ∧
     ((∀ s ∈ (PyModule.mk [.imp [⟨lit "json", none⟩]]).body, s.numNames = 1) →
       (remove_imports (some ⟨[.imp [⟨lit "json", none⟩]]⟩) (lit "import json")).2.length =
         (PyModule.mk [.imp [⟨lit "json", none⟩]]).body.length)) :=
  ⟨by decide, c8_amended_removed_entries_count_names _ _ (by decide)⟩

/-! ## Claim C9 -/

/-- C9: on a syntactically invalid input (`ast.parse` raises), the
original text is returned unchanged with an empty removal list, so the
code handed to `exec` is the original source and the resulting syntax
error surfaces in the outcome: `success = false` with the error message
embedded in `stderr`. -/
theorem c9_syntax_error_passthrough (code : Str) (msg tb pOut pErr : Str)
    (dur : Durations) (capOut capErr : Nat) (w : Stdio) (clk : Nat) :
    remove_imports none code = (code, []) ∧
    (∃ o : Outcome,
      (execute_python_code none code (.exn msg tb pOut pErr)
          dur capOut capErr w clk).1 = .ok o ∧
      o.success = false ∧
      ∃ pre suf, o.stderr = pre ++ msg ++ suf) := by
  refine ⟨rfl, ⟨_, rfl, rfl, ?_⟩⟩
  show ∃ pre suf, pErr ++ execErrorText msg tb = pre ++ msg ++ suf
  obtain ⟨a, b, hab⟩ := execErrorText_embeds msg tb
  exact ⟨pErr ++ a, b, by rw [hab]; simp [List.append_assoc]⟩

/-! ## Loop unrolling lemmas -/

theorem loop_raise_step (mid : Str) (llm : Nat → LLMResult) (tool : Nat → ToolDispatch)
    (e : ErrorInfo) (fuel iter : Nat) (st : LoopState)
    (hllm : llm st.attempts.length = .err e) (hre : isRetryable e = false) :
    loop mid llm tool (fuel + 1) iter st =
      .raised e { st with iteration_count := st.iteration_count + 1
                          attempts := st.attempts ++ [false] } := by
  simp only [loop]
  rw [show ({ st with iteration_count := st.iteration_count + 1 } : LoopState).attempts
      = st.attempts from rfl, hllm]
  simp [hre]

theorem loop_exhaust_step (mid : Str) (llm : Nat → LLMResult) (tool : Nat → ToolDispatch)
    (e : ErrorInfo) (fuel iter : Nat) (st : LoopState)
    (hllm : llm st.attempts.length = .err e) (hre : isRetryable e = true)
    (hrc : ¬ st.retry_count + 1 ≤ maxRetries) :
    loop mid llm tool (fuel + 1) iter st =
      .raised e { st with iteration_count := st.iteration_count + 1
                          attempts := st.attempts ++ [false]
                          retry_count := st.retry_count + 1 } := by
  simp only [loop]
  rw [show ({ st with iteration_count := st.iteration_count + 1 } : LoopState).attempts
      = st.attempts from rfl, hllm]
  simp [hre, hrc]

theorem loop_retry_step (mid : Str) (llm : Nat → LLMResult) (tool : Nat → ToolDispatch)
    (e : ErrorInfo) (fuel iter : Nat) (st : LoopState)
    (hllm : llm st.attempts.length = .err e) (hre : isRetryable e = true)
    (hrc : st.retry_count + 1 ≤ maxRetries) :
    loop mid llm tool (fuel + 1) iter st =
      loop mid llm tool fuel (iter + 1)
        { st with iteration_count := st.iteration_count + 1
                  attempts := st.attempts ++ [false]
                  retry_count := st.retry_count + 1
                  waits := st.waits ++
                    [if isTimeoutClass e then min (5 * (st.retry_count + 1)) 20
                     else min (2 ^ (st.retry_count + 1)) 30] } := by
  simp only [loop]
  rw [show ({ st with iteration_count := st.iteration_count + 1 } : LoopState).attempts
      = st.attempts from rfl, hllm]
  simp [hre, hrc]

theorem loop_final_step (mid : Str) (llm : Nat → LLMResult) (tool : Nat → ToolDispatch)
    (t : Str) (fuel iter : Nat) (st : LoopState)
    (hllm : llm st.attempts.length = .ok t) (hd : isDirective t = false)
    (hcond : (isNova mid && st.tool_calls.isEmpty && (iter == 0)) = false) :
    loop mid llm tool (fuel + 1) iter st =
      .done (cleanResponse t)
        { st with iteration_count := st.iteration_count + 1
                  retry_count := 0
                  attempts := st.attempts ++ [true]
                  messages := st.messages ++ [⟨lit "assistant", t⟩]
                  full_context := st.full_context ++ [.modelResponse t st.clock (iter + 1)]
                  clock := st.clock + 1 } := by
  simp only [loop]
  rw [show ({ st with iteration_count := st.iteration_count + 1 } : LoopState).attempts
      = st.attempts from rfl, hllm]
  simp [hd, hcond]

theorem loop_tool_step (mid : Str) (llm : Nat → LLMResult) (tool : Nat → ToolDispatch)
    (t code : Str) (fuel iter : Nat) (st : LoopState)
    (hllm : llm st.attempts.length = .ok t) (hd : isDirective t = true)
    (hc : extractCode t = some code) :
    loop mid llm tool (fuel + 1) iter st =
      loop mid llm tool fuel (iter + 1)
        { st with iteration_count := st.iteration_count + 1
                  retry_count := 0
                  attempts := st.attempts ++ [true]
                  messages := st.messages ++ [⟨lit "assistant", t⟩,
                    ⟨lit "user", toolResponseText (execute_tool (tool st.toolIdx) code).1⟩]
                  full_context := st.full_context ++
                    [.modelResponse t st.clock (iter + 1),
                     .toolExecution code (execute_tool (tool st.toolIdx) code).1 (st.clock + 1)]
                  clock := st.clock + 2
                  toolIdx := st.toolIdx + 1
                  tool_calls := st.tool_calls ++ (execute_tool (tool st.toolIdx) code).2.toList
                  dispatches := st.dispatches ++ [(execute_tool (tool st.toolIdx) code).2.isSome] } := by
  simp only [loop]
  rw [show ({ st with iteration_count := st.iteration_count + 1 } : LoopState).attempts
      = st.attempts from rfl, hllm]
  simp [hd, hc]

theorem loop_malformed_step (mid : Str) (llm : Nat → LLMResult) (tool : Nat → ToolDispatch)
    (t : Str) (fuel iter : Nat) (st : LoopState)
    (hllm : llm st.attempts.length = .ok t) (hd : isDirective t = true)
    (hc : extractCode t = none) :
    loop mid llm tool (fuel + 1) iter st =
      loop mid llm tool fuel (iter + 1)
        { st with iteration_count := st.iteration_count + 1
                  retry_count := 0
                  attempts := st.attempts ++ [true]
                  messages := st.messages ++ [⟨lit "assistant", t⟩, ⟨lit "user", noCodeBlockText⟩]
                  full_context := st.full_context ++ [.modelResponse t st.clock (iter + 1)]
                  clock := st.clock + 1 } := by
  simp only [loop]
  rw [show ({ st with iteration_count := st.iteration_count + 1 } : LoopState).attempts
      = st.attempts from rfl, hllm]
  simp [hd, hc]

/-! ## Loop trace invariant -/

/-- Is a context entry a `tool_execution` entry? -/
def isToolExecEntry : CtxEntry → Bool
  | .toolExecution _ _ _ => true
  | _ => false

/-- Number of `tool_execution` entries in a context trace. -/
def ctxToolCount (l : List CtxEntry) : Nat := l.countP isToolExecEntry

theorem ctxToolCount_append (l₁ l₂ : List CtxEntry) :
    ctxToolCount (l₁ ++ l₂) = ctxToolCount l₁ + ctxToolCount l₂ :=
  List.countP_append _ _ _

/-- The loop-state bookkeeping invariant: `iteration_count` counts LLM
attempts; `tool_calls` holds one record per successful dispatch; the
context holds one `tool_execution` entry per dispatch (successful or
not). -/
def StInv (st : LoopState) : Prop :=
  st.iteration_count = st.attempts.length ∧
  st.tool_calls.length = (st.dispatches.filter id).length ∧
  ctxToolCount st.full_context = st.dispatches.length

theorem loop_preserves_inv (mid : Str) (llm : Nat → LLMResult) (tool : Nat → ToolDispatch) :
    ∀ fuel iter st, StInv st → StInv (stateOf (loop mid llm tool fuel iter st)) := by
  intro fuel
  induction fuel with
  | zero => intro iter st h; exact h
  | succ n ih =>
    intro iter st h
    obtain ⟨h1, h2, h3⟩ := h
    simp only [loop]
    rw [show ({ st with iteration_count := st.iteration_count + 1 } : LoopState).attempts
        = st.attempts from rfl]
    cases hllm : llm st.attempts.length with
    | err e =>
      by_cases hre : isRetryable e = true
      · simp only [hre, if_true]
        by_cases hrc : st.retry_count + 1 ≤ maxRetries
        · simp only [hrc, if_true]
          apply ih
          exact ⟨by simp [h1], by simp [h2], by simp [ctxToolCount] at h3 ⊢; exact h3⟩
        · simp only [hrc, if_false]
          exact ⟨by simp [stateOf, h1], by simp [stateOf, h2], by simpa [stateOf, ctxToolCount] using h3⟩
      · simp only [Bool.not_eq_true] at hre
        simp only [hre, Bool.false_eq_true, if_false]
        exact ⟨by simp [stateOf, h1], by simp [stateOf, h2], by simpa [stateOf, ctxToolCount] using h3⟩
    | ok t =>
      by_cases hd : isDirective t = true
      · simp only [hd, if_true]
        cases hc : extractCode t with
        | some code =>
          apply ih
          refine ⟨by simp [h1], ?_, ?_⟩
          · simp only [List.length_append, List.filter_append, h2]
            cases hrec : (execute_tool (tool st.toolIdx) code).2 <;> simp
          · simp only [ctxToolCount_append, h3, List.length_append]
            simp [ctxToolCount, List.countP_cons, isToolExecEntry]
        | none =>
          apply ih
          exact ⟨by simp [h1], by simp [h2], by simpa [ctxToolCount] using h3⟩
      · simp only [Bool.not_eq_true] at hd
        simp only [hd, Bool.false_eq_true, if_false]
        by_cases hnova : (isNova mid && st.tool_calls.isEmpty && (iter == 0)) = true
        · simp only [hnova, if_true]
          apply ih
          exact ⟨by simp [h1], by simp [h2], by simpa [ctxToolCount] using h3⟩
        · simp only [Bool.not_eq_true] at hnova
          simp only [hnova, Bool.false_eq_true, if_false]
          refine ⟨by simp [stateOf, h1], by simp [stateOf, h2], ?_⟩
          simp only [stateOf, ctxToolCount_append, h3]
          simp [ctxToolCount, List.countP_cons, isToolExecEntry]

/-! ## Oracles for concrete runs -/

/-- A throttling error (retryable, quota class). -/
def throttleErr : ErrorInfo :=
  ⟨lit "ThrottlingException: Rate exceeded", lit "ClientError"⟩

/-- A non-retryable error. -/
def fatalErr : ErrorInfo :=
  ⟨lit "ValidationException: bad input", lit "ValidationException"⟩

/-- LLM oracle: first attempt throttles, every later attempt returns a
final (non-directive) analysis. -/
def llmRetryOnce : Nat → LLMResult :=
  fun k => if k = 0 then .err throttleErr else .ok (lit "### Analysis complete.")

/-- LLM oracle: every attempt raises a non-retryable error. -/
def llmFatal : Nat → LLMResult := fun _ => .err fatalErr

/-- LLM oracle: one well-formed tool round, then a final analysis. -/
def llmOneTool : Nat → LLMResult :=
  fun k =>
    if k = 0 then .ok (lit "TOOL: python_executor\n```python\nresult = 1\n```")
    else .ok (lit "### Done.")

/-- Tool oracle: every dispatch fails with a transport exception. -/
def noTool : Nat → ToolDispatch := fun _ => .exn []

/-- Tool oracle: every dispatch returns status 200 with a success body. -/
def okTool : Nat → ToolDispatch := fun _ => .resp 200 ⟨some true, some (lit "1")⟩

/-! ## Claim C1 -/

/-- C1 counterexample: with an LLM behaviour of one retryable throttling
failure followed by a successful final response, the returned
`iteration_count` is 2 although exactly one LLM round-trip completed
successfully — a retried-then-succeeded logical step is counted once per
attempt, not once. -/
theorem c1_counterexample_retry_counted_per_attempt :
    (investigate_with_tools (lit "anthropic.claude-3") llmRetryOnce noTool (lit "why")).iteration_count = 2 ∧
    ((investigate_with_tools (lit "anthropic.claude-3") llmRetryOnce noTool (lit "why")).attempts.filter id).length = 1 ∧
    (2 : Nat) ≠ 1 :=
  ⟨rfl, rfl, by decide⟩

/-- C1 amended: `iteration_count` equals the total number of Bedrock call
attempts (the ghost `attempts` trace), counting each retried attempt of
the same logical step separately — `iteration_count += 1` runs before
every `converse` call, including ones that raise (and the repository's own
test `test_iteration_count_with_retries` pins this behaviour). -/
theorem c1_amended_iteration_count_equals_attempts (mid : Str)
    (llm : Nat → LLMResult) (tool : Nat → ToolDispatch) (prompt : Str) :
    (investigate_with_tools mid llm tool prompt).iteration_count =
      (investigate_with_tools mid llm tool prompt).attempts.length := by
  have h := loop_preserves_inv mid llm tool maxIterations 0 (initState prompt) ⟨rfl, rfl, rfl⟩
  unfold investigate_with_tools
  cases hout : loop mid llm tool maxIterations 0 (initState prompt) with
  | done f st =>
    rw [hout] at h
    simpa [stateOf] using h.1
  | raised e st =>
    rw [hout] at h
    simpa [stateOf] using h.1

/-! ## Claim C2 -/

/-- C2: whenever the loop lets an exception reach the outer handler (in
particular when every LLM call raises a non-retryable error), the
orchestrator still returns a well-formed result dictionary — no exception
escapes, the fallback `report` embeds the error's textual cause `str(e)`,
and `full_context` is returned empty. -/
theorem c2_fatal_fallback_report (mid : Str) (llm : Nat → LLMResult)
    (tool : Nat → ToolDispatch) (prompt : Str) (e : ErrorInfo)
    (h : raisedInfo (loop mid llm tool maxIterations 0 (initState prompt)) = some e) :
    (investigate_with_tools mid llm tool prompt).full_context = [] ∧
    ∃ pre post, (investigate_with_tools mid llm tool prompt).report =
      pre ++ e.errorStr ++ post := by
  unfold investigate_with_tools
  cases hout : loop mid llm tool maxIterations 0 (initState prompt) with
  | done f st =>
    rw [hout] at h
    exact absurd h (by simp [raisedInfo])
  | raised e' st =>
    rw [hout] at h
    have he : e' = e := by simpa [raisedInfo] using h
    subst he
    exact ⟨rfl, errorReportPre, errorReportSuf, rfl⟩

/-- Witness for C2: a run whose every LLM call raises a non-retryable
`ValidationException` terminates fatally on the first attempt and the
returned report embeds the error text. -/
theorem c2_witness_fatal_run :
    raisedInfo (loop (lit "m") llmFatal noTool maxIterations 0 (initState (lit "p"))) =
      some fatalErr ∧
    ((investigate_with_tools (lit "m") llmFatal noTool (lit "p")).full_context = [] ∧
     ∃ pre post, (investigate_with_tools (lit "m") llmFatal noTool (lit "p")).report =
       pre ++ fatalErr.errorStr ++ post) :=
  ⟨rfl, c2_fatal_fallback_report _ _ _ _ _ rfl⟩

/-! ## Claim C10 -/

/-- C10: in every run, `tool_calls` holds exactly one record per
successful dispatch (status 200, no transport exception, recorded in the
ghost `dispatches` trace) while the loop's `full_context` gains one
`tool_execution` entry per dispatch, successful or not; hence
`tool_calls` is never longer than the dispatch count, and when no
exception reaches the outer handler the returned result satisfies
`tool_calls.length ≤` the number of `tool_execution` context entries
(on the fatal path the returned dictionary carries an empty
`full_context`, so the comparison there concerns the loop state). -/
theorem c10_tool_records_only_on_success (mid : Str) (llm : Nat → LLMResult)
    (tool : Nat → ToolDispatch) (prompt : Str) :
    (investigate_with_tools mid llm tool prompt).tool_calls.length =
      ((investigate_with_tools mid llm tool prompt).dispatches.filter id).length ∧
    (investigate_with_tools mid llm tool prompt).tool_calls.length ≤
      (investigate_with_tools mid llm tool prompt).dispatches.length ∧
    ctxToolCount (stateOf (loop mid llm tool maxIterations 0 (initState prompt))).full_context =
      (stateOf (loop mid llm tool maxIterations 0 (initState prompt))).dispatches.length ∧
    (raisedInfo (loop mid llm tool maxIterations 0 (initState prompt)) = none →
      (investigate_with_tools mid llm tool prompt).tool_calls.length ≤
        ctxToolCount (investigate_with_tools mid llm tool prompt).full_context) := by
  have h := loop_preserves_inv mid llm tool maxIterations 0 (initState prompt) ⟨rfl, rfl, rfl⟩
  unfold investigate_with_tools
  cases hout : loop mid llm tool maxIterations 0 (initState prompt) with
  | done f st =>
    rw [hout] at h
    obtain ⟨_, h2, h3⟩ := h
    simp only [stateOf] at h2 h3
    refine ⟨by simpa using h2, ?_, by simpa [stateOf] using h3, ?_⟩
    · simp only
      rw [h2]
      exact List.length_filter_le _ _
    · intro _
      simp only
      rw [h2, h3]
      exact List.length_filter_le _ _
  | raised e st =>
    rw [hout] at h
    obtain ⟨_, h2, h3⟩ := h
    simp only [stateOf] at h2 h3
    refine ⟨by simpa using h2, ?_, by simpa [stateOf] using h3, ?_⟩
    · simp only
      rw [h2]
      exact List.length_filter_le _ _
    · intro hc
      exact absurd hc (by simp [raisedInfo])

/-- Witness for C10's non-fatal clause: a run with one successful tool
dispatch followed by a final analysis. -/
theorem c10_witness_successful_dispatch :
    raisedInfo (loop (lit "m") llmOneTool okTool maxIterations 0 (initState (lit "p"))) = none ∧
    (investigate_with_tools (lit "m") llmOneTool okTool (lit "p")).tool_calls.length ≤
      ctxToolCount (investigate_with_tools (lit "m") llmOneTool okTool (lit "p")).full_context :=
  ⟨rfl, (c10_tool_records_only_on_success (lit "m") llmOneTool okTool (lit "p")).2.2.2 rfl⟩

theorem range_one : List.range 1 = [0] := by decide

theorem range_two : List.range 2 = [0, 1] := by decide

theorem range_three : List.range 3 = [0, 1, 2] := by decide

/-! ## Claim C4 -/

/-- LLM oracle raising the same error on every attempt. -/
def alwaysErr (e : ErrorInfo) : Nat → LLMResult := fun _ => .err e

/-- LLM oracle raising `e` on the first `n` attempts, then answering `t`. -/
def errThenOk (e : ErrorInfo) (t : Str) (n : Nat) : Nat → LLMResult :=
  fun k => if k < n then .err e else .ok t

/-- C4: an LLM-call error is retried only when `isRetryable` holds
(rate-limit/quota or read-timeout signals); a non-retryable error is fatal
immediately with no backoff wait; `n ≤ 3` consecutive retryable failures
followed by success produce exactly the backoff waits
`min(5·k, 20)` (timeout class) or `min(2^k, 30)` (quota class) for
attempt `k = 1..n` and then complete normally; a persistently retryable
error performs exactly 3 waits (3 retries beyond the initial attempt) and
then becomes fatal. -/
theorem c4_retry_classification_and_backoff (mid : Str) (tool : Nat → ToolDispatch)
    (prompt : Str) (e : ErrorInfo) (t : Str) (n : Nat)
    (hmid : isNova mid = false) (ht : isDirective t = false) :
    (isRetryable e = false →
      raisedInfo (loop mid (alwaysErr e) tool maxIterations 0 (initState prompt)) = some e ∧
      (stateOf (loop mid (alwaysErr e) tool maxIterations 0 (initState prompt))).waits = []) ∧
    (isRetryable e = true → n ≤ maxRetries →
      (∃ st, loop mid (errThenOk e t n) tool maxIterations 0 (initState prompt) =
        .done (cleanResponse t) st) ∧
      (stateOf (loop mid (errThenOk e t n) tool maxIterations 0 (initState prompt))).waits =
        (List.range n).map (fun k =>
          if isTimeoutClass e then min (5 * (k + 1)) 20 else min (2 ^ (k + 1)) 30)) ∧
    (isRetryable e = true →
      raisedInfo (loop mid (alwaysErr e) tool maxIterations 0 (initState prompt)) = some e ∧
      (stateOf (loop mid (alwaysErr e) tool maxIterations 0 (initState prompt))).waits =
        (List.range maxRetries).map (fun k =>
          if isTimeoutClass e then min (5 * (k + 1)) 20 else min (2 ^ (k + 1)) 30)) := by
  refine ⟨?_, ?_, ?_⟩
  · -- non-retryable: fatal at once, no wait
    intro hre
    have h1 := loop_raise_step mid (alwaysErr e) tool e 99 0 (initState prompt) rfl hre
    constructor
    · rw [show (maxIterations : Nat) = 99 + 1 from rfl, h1]; rfl
    · rw [show (maxIterations : Nat) = 99 + 1 from rfl, h1]; rfl
  · -- n retryable failures then success
    intro hre hn
    have hn3 : n ≤ 3 := hn
    interval_cases n
    · have h1 := loop_final_step mid (errThenOk e t 0) tool t 99 0 (initState prompt)
        rfl ht (by simp [hmid])
      refine ⟨⟨_, h1⟩, ?_⟩
      rw [show (maxIterations : Nat) = 99 + 1 from rfl, h1]; rfl
    · have h1 := loop_retry_step mid (errThenOk e t 1) tool e 99 0 (initState prompt)
        rfl hre (by simp [initState, maxRetries])
      have h2 := loop_final_step mid (errThenOk e t 1) tool t 98 1
        ({ initState prompt with
           iteration_count := 1
           attempts := [false]
           retry_count := 1
           waits := [if isTimeoutClass e then min 5 20 else min 2 30] }) rfl ht (by simp)
      have hAll := h1.trans h2
      refine ⟨⟨_, hAll⟩, ?_⟩
      rw [show (maxIterations : Nat) = 99 + 1 from rfl, hAll]
      cases hT : isTimeoutClass e <;> simp [stateOf, hT, maxRetries, range_one, range_two, range_three]
    · have h1 := loop_retry_step mid (errThenOk e t 2) tool e 99 0 (initState prompt)
        rfl hre (by simp [initState, maxRetries])
      have h2 := loop_retry_step mid (errThenOk e t 2) tool e 98 1
        ({ initState prompt with
           iteration_count := 1
           attempts := [false]
           retry_count := 1
           waits := [if isTimeoutClass e then min 5 20 else min 2 30] }) rfl hre (by simp [initState, maxRetries])
      have h3 := loop_final_step mid (errThenOk e t 2) tool t 97 2
        ({ initState prompt with
           iteration_count := 2
           attempts := [false, false]
           retry_count := 2
           waits := [if isTimeoutClass e then min 5 20 else min 2 30,
                     if isTimeoutClass e then min 10 20 else min 4 30] }) rfl ht (by simp)
      have hAll := (h1.trans h2).trans h3
      refine ⟨⟨_, hAll⟩, ?_⟩
      rw [show (maxIterations : Nat) = 99 + 1 from rfl, hAll]
      cases hT : isTimeoutClass e <;> simp [stateOf, hT, maxRetries, range_one, range_two, range_three]
    · have h1 := loop_retry_step mid (errThenOk e t 3) tool e 99 0 (initState prompt)
        rfl hre (by simp [initState, maxRetries])
      have h2 := loop_retry_step mid (errThenOk e t 3) tool e 98 1
        ({ initState prompt with
           iteration_count := 1
           attempts := [false]
           retry_count := 1
           waits := [if isTimeoutClass e then min 5 20 else min 2 30] }) rfl hre (by simp [initState, maxRetries])
      have h3 := loop_retry_step mid (errThenOk e t 3) tool e 97 2
        ({ initState prompt with
           iteration_count := 2
           attempts := [false, false]
           retry_count := 2
           waits := [if isTimeoutClass e then min 5 20 else min 2 30,
                     if isTimeoutClass e then min 10 20 else min 4 30] }) rfl hre (by simp [initState, maxRetries])
      have h4 := loop_final_step mid (errThenOk e t 3) tool t 96 3
        ({ initState prompt with
           iteration_count := 3
           attempts := [false, false, false]
           retry_count := 3
           waits := [if isTimeoutClass e then min 5 20 else min 2 30,
                     if isTimeoutClass e then min 10 20 else min 4 30,
                     if isTimeoutClass e then min 15 20 else min 8 30] }) rfl ht (by simp)
      have hAll := ((h1.trans h2).trans h3).trans h4
      refine ⟨⟨_, hAll⟩, ?_⟩
      rw [show (maxIterations : Nat) = 99 + 1 from rfl, hAll]
      cases hT : isTimeoutClass e <;> simp [stateOf, hT, maxRetries, range_one, range_two, range_three]
  · -- persistently retryable: 3 waits, then fatal
    intro hre
    have h1 := loop_retry_step mid (alwaysErr e) tool e 99 0 (initState prompt)
      rfl hre (by simp [initState, maxRetries])
    have h2 := loop_retry_step mid (alwaysErr e) tool e 98 1
      ({ initState prompt with
         iteration_count := 1
         attempts := [false]
         retry_count := 1
         waits := [if isTimeoutClass e then min 5 20 else min 2 30] }) rfl hre (by simp [initState, maxRetries])
    have h3 := loop_retry_step mid (alwaysErr e) tool e 97 2
      ({ initState prompt with
         iteration_count := 2
         attempts := [false, false]
         retry_count := 2
         waits := [if isTimeoutClass e then min 5 20 else min 2 30,
                   if isTimeoutClass e then min 10 20 else min 4 30] }) rfl hre (by simp [initState, maxRetries])
    have h4 := loop_exhaust_step mid (alwaysErr e) tool e 96 3
      ({ initState prompt with
         iteration_count := 3
         attempts := [false, false, false]
         retry_count := 3
         waits := [if isTimeoutClass e then min 5 20 else min 2 30,
                   if isTimeoutClass e then min 10 20 else min 4 30,
                   if isTimeoutClass e then min 15 20 else min 8 30] }) rfl hre (by simp [initState, maxRetries])
    have hAll := ((h1.trans h2).trans h3).trans h4
    constructor
    · rw [show (maxIterations : Nat) = 99 + 1 from rfl, hAll]; rfl
    · rw [show (maxIterations : Nat) = 99 + 1 from rfl, hAll]
      cases hT : isTimeoutClass e <;> simp [stateOf, hT, maxRetries, range_one, range_two, range_three]

/-- Witness for C4 at concrete errors: `fatalErr` (non-retryable, fatal
with no waits), and `throttleErr` (retryable quota class) with 2 failures
then success, and persistently failing. -/
theorem c4_witness_concrete_errors :
    (raisedInfo (loop (lit "claude-v2") (alwaysErr fatalErr) noTool maxIterations 0
        (initState (lit "p"))) = some fatalErr ∧
     (stateOf (loop (lit "claude-v2") (alwaysErr fatalErr) noTool maxIterations 0
        (initState (lit "p")))).waits = []) ∧
    ((∃ st, loop (lit "claude-v2") (errThenOk throttleErr (lit "### Done.") 2) noTool
        maxIterations 0 (initState (lit "p")) =
          .done (cleanResponse (lit "### Done.")) st) ∧
     (stateOf (loop (lit "claude-v2") (errThenOk throttleErr (lit "### Done.") 2) noTool
        maxIterations 0 (initState (lit "p")))).waits =
       (List.range 2).map (fun k =>
         if isTimeoutClass throttleErr then min (5 * (k + 1)) 20 else min (2 ^ (k + 1)) 30)) ∧
    (raisedInfo (loop (lit "claude-v2") (alwaysErr throttleErr) noTool maxIterations 0
        (initState (lit "p"))) = some throttleErr ∧
     (stateOf (loop (lit "claude-v2") (alwaysErr throttleErr) noTool maxIterations 0
        (initState (lit "p")))).waits =
       (List.range maxRetries).map (fun k =>
         if isTimeoutClass throttleErr then min (5 * (k + 1)) 20 else min (2 ^ (k + 1)) 30)) :=
  ⟨(c4_retry_classification_and_backoff (lit "claude-v2") noTool (lit "p") fatalErr
      (lit "### Done.") 2 rfl rfl).1 rfl,
   (c4_retry_classification_and_backoff (lit "claude-v2") noTool (lit "p") throttleErr
      (lit "### Done.") 2 rfl rfl).2.1 rfl (by decide),
   (c4_retry_classification_and_backoff (lit "claude-v2") noTool (lit "p") throttleErr
      (lit "### Done.") 2 rfl rfl).2.2 rfl⟩

/-! ## Substring facts for directive parsing -/

theorem findSub_isPrefixOf (pat : Str) :
    ∀ (s : Str) (p : Nat), findSub pat s = some p → pat.isPrefixOf (s.drop p) = true := by
  intro s
  induction s with
  | nil =>
    intro p h
    simp only [findSub] at h
    split at h
    · cases h; exact ‹pat.isPrefixOf ([] : Str) = true›
    · exact absurd h (by simp)
  | cons c t ih =>
    intro p h
    simp only [findSub] at h
    split at h
    · cases h
      exact ‹pat.isPrefixOf (c :: t) = true›
    · cases hft : findSub pat t with
      | none => rw [hft] at h; exact absurd h (by simp)
      | some q =>
        rw [hft] at h
        replace h : some (q + 1) = some p := h
        cases h
        exact ih q hft

theorem isPrefixOf_exists_append (l : Str) :
    ∀ s : Str, l.isPrefixOf s = true → ∃ u, s = l ++ u := by
  induction l with
  | nil => exact fun s _ => ⟨s, rfl⟩
  | cons a l ih =>
    intro s h
    cases s with
    | nil => simp [List.isPrefixOf] at h
    | cons b s' =>
      simp only [List.isPrefixOf, Bool.and_eq_true, beq_iff_eq] at h
      obtain ⟨hab, hpre⟩ := h
      obtain ⟨u, hu⟩ := ih s' hpre
      exact ⟨u, by simp [hab, hu]⟩

theorem extractCode_decomp (t c : Str) (h : extractCode t = some c) :
    ∃ a b r, t = a ++ lit "```python\n" ++ b ++ lit "\n```" ++ r ∧ c = pyStrip b := by
  unfold extractCode at h
  cases hp : findSub (lit "```python\n") t with
  | none => rw [hp] at h; simp at h
  | some p =>
    rw [hp] at h
    replace h : (match findSub (lit "\n```") (t.drop (p + 10)) with
        | none => (none : Option Str)
        | some d => some (pyStrip ((t.drop (p + 10)).take d))) = some c := h
    cases hq : findSub (lit "\n```") (t.drop (p + 10)) with
    | none => rw [hq] at h; simp at h
    | some d =>
      rw [hq] at h
      replace h : some (pyStrip ((t.drop (p + 10)).take d)) = some c := h
      have hc : c = pyStrip ((t.drop (p + 10)).take d) := (Option.some.inj h).symm
      obtain ⟨u, hu⟩ := isPrefixOf_exists_append _ _ (findSub_isPrefixOf _ _ _ hp)
      obtain ⟨v, hv⟩ := isPrefixOf_exists_append _ _ (findSub_isPrefixOf _ _ _ hq)
      have hu10 : t.drop (p + 10) = u := by
        rw [← List.drop_drop, hu,
          show (10 : Nat) = (lit "```python\n").length from rfl]
        exact List.drop_left _ _
      have hm : t.drop (p + 10) = (t.drop (p + 10)).take d ++ (lit "\n```" ++ v) := by
        conv_lhs => rw [← List.take_append_drop d (t.drop (p + 10))]
        rw [hv]
      refine ⟨t.take p, (t.drop (p + 10)).take d, v, ?_, hc⟩
      calc t = t.take p ++ t.drop p := (List.take_append_drop p t).symm
        _ = t.take p ++ (lit "```python\n" ++ t.drop (p + 10)) := by rw [hu, hu10]
        _ = t.take p ++ (lit "```python\n" ++
              ((t.drop (p + 10)).take d ++ (lit "\n```" ++ v))) := by rw [← hm]
        _ = t.take p ++ lit "```python\n" ++ (t.drop (p + 10)).take d ++ lit "\n```" ++ v := by
              simp [List.append_assoc]

/-! ## Claim C5 -/

/-- C5: when the first model response opens with the directive marker
(case-insensitively): if a well-formed fenced block is found, the
extracted code is the block's trimmed contents and the round dispatches
exactly one tool execution — a `tool_execution` context entry, a possible
`ToolCallRecord`, and the tool-result user message are appended and the
loop continues; if no fenced block is found, nothing is executed (the
tool oracle is not consulted: `toolIdx` stays 0, no `tool_execution`
entry, no record, no dispatch), a corrective user message asking for the
exact format is appended, and the loop continues. -/
theorem c5_directive_parse_and_dispatch (mid : Str) (llm : Nat → LLMResult)
    (tool : Nat → ToolDispatch) (prompt t : Str)
    (hllm : llm 0 = .ok t) (hd : isDirective t = true) :
    (∀ code, extractCode t = some code →
      (∃ a b r, t = a ++ lit "```python\n" ++ b ++ lit "\n```" ++ r ∧ code = pyStrip b) ∧
      loop mid llm tool maxIterations 0 (initState prompt) =
        loop mid llm tool 99 1
          ({ initState prompt with
             iteration_count := 1
             attempts := [true]
             messages := (initState prompt).messages ++ [⟨lit "assistant", t⟩,
               ⟨lit "user", toolResponseText (execute_tool (tool 0) code).1⟩]
             full_context := (initState prompt).full_context ++
               [.modelResponse t 1 1, .toolExecution code (execute_tool (tool 0) code).1 2]
             clock := 3
             toolIdx := 1
             tool_calls := (execute_tool (tool 0) code).2.toList
             dispatches := [(execute_tool (tool 0) code).2.isSome] })) ∧
    (extractCode t = none →
      loop mid llm tool maxIterations 0 (initState prompt) =
        loop mid llm tool 99 1
          ({ initState prompt with
             iteration_count := 1
             attempts := [true]
             messages := (initState prompt).messages ++
               [⟨lit "assistant", t⟩, ⟨lit "user", noCodeBlockText⟩]
             full_context := (initState prompt).full_context ++ [.modelResponse t 1 1]
             clock := 2 })) := by
  constructor
  · intro code hc
    refine ⟨extractCode_decomp t code hc, ?_⟩
    exact loop_tool_step mid llm tool t code 99 0 (initState prompt) hllm hd hc
  · intro hc
    exact loop_malformed_step mid llm tool t 99 0 (initState prompt) hllm hd hc

/-- LLM oracle whose responses carry the directive marker but no fenced
code block. -/
def llmMalformed : Nat → LLMResult :=
  fun _ => .ok (lit "TOOL: python_executor\nno fence here")

/-- Witness for C5: a concrete well-formed directive (dispatched, with
the code equal to the block's trimmed contents) and a concrete malformed
directive (not dispatched, corrective message appended). -/
theorem c5_witness_concrete_directives :
    ((∃ a b r, lit "TOOL: python_executor\n```python\nresult = 1\n```" =
        a ++ lit "```python\n" ++ b ++ lit "\n```" ++ r ∧ lit "result = 1" = pyStrip b) ∧
      loop (lit "m") llmOneTool okTool maxIterations 0 (initState (lit "p")) =
        loop (lit "m") llmOneTool okTool 99 1
          ({ initState (lit "p") with
             iteration_count := 1
             attempts := [true]
             messages := (initState (lit "p")).messages ++
               [⟨lit "assistant", lit "TOOL: python_executor\n```python\nresult = 1\n```"⟩,
                ⟨lit "user", toolResponseText (execute_tool (okTool 0) (lit "result = 1")).1⟩]
             full_context := (initState (lit "p")).full_context ++
               [.modelResponse (lit "TOOL: python_executor\n```python\nresult = 1\n```") 1 1,
                .toolExecution (lit "result = 1") (execute_tool (okTool 0) (lit "result = 1")).1 2]
             clock := 3
             toolIdx := 1
             tool_calls := (execute_tool (okTool 0) (lit "result = 1")).2.toList
             dispatches := [(execute_tool (okTool 0) (lit "result = 1")).2.isSome] })) ∧
    (loop (lit "m") llmMalformed okTool maxIterations 0 (initState (lit "p")) =
      loop (lit "m") llmMalformed okTool 99 1
        ({ initState (lit "p") with
           iteration_count := 1
           attempts := [true]
           messages := (initState (lit "p")).messages ++
             [⟨lit "assistant", lit "TOOL: python_executor\nno fence here"⟩,
              ⟨lit "user", noCodeBlockText⟩]
           full_context := (initState (lit "p")).full_context ++
             [.modelResponse (lit "TOOL: python_executor\nno fence here") 1 1]
           clock := 2 })) :=
  ⟨(c5_directive_parse_and_dispatch (lit "m") llmOneTool okTool (lit "p")
      (lit "TOOL: python_executor\n```python\nresult = 1\n```") rfl rfl).1
      (lit "result = 1") (by decide),
   (c5_directive_parse_and_dispatch (lit "m") llmMalformed okTool (lit "p")
      (lit "TOOL: python_executor\nno fence here") rfl rfl).2 (by decide)⟩

/-! ## Claim C3 -/

theorem firstIdx_none_spec (p : Nat → Bool) :
    ∀ n, firstIdx p n = none → ∀ k, k < n → p k = false := by
  intro n
  induction n with
  | zero => intro _ k hk; omega
  | succ m ih =>
    intro h k hk
    simp only [firstIdx] at h
    cases hm : firstIdx p m with
    | some j => rw [hm] at h; exact absurd h (by simp)
    | none =>
      rw [hm] at h
      replace h : (if p m = true then some m else none) = none := h
      rcases Nat.lt_succ_iff_lt_or_eq.mp hk with hk' | rfl
      · exact ih hm k hk'
      · split at h
        · exact absurd h (by simp)
        · simpa using ‹¬ p k = true›

theorem firstIdx_some_spec (p : Nat → Bool) :
    ∀ n j, firstIdx p n = some j → j < n ∧ p j = true ∧ ∀ k, k < j → p k = false := by
  intro n
  induction n with
  | zero => intro j h; simp [firstIdx] at h
  | succ m ih =>
    intro j h
    simp only [firstIdx] at h
    cases hm : firstIdx p m with
    | some j' =>
      rw [hm] at h
      replace h : some j' = some j := h
      cases h
      obtain ⟨h1, h2, h3⟩ := ih j hm
      exact ⟨Nat.lt_succ_of_lt h1, h2, h3⟩
    | none =>
      rw [hm] at h
      replace h : (if p m = true then some m else none) = some j := h
      split at h
      · cases h
        exact ⟨Nat.lt_succ_self _, ‹p m = true›, fun k hk => firstIdx_none_spec p m hm k hk⟩
      · exact absurd h (by simp)

/-- C3 counterexample: for the final response `"  Hi.\nTOOL: python_executor\n..."`
the stripper removes the trailing directive but then applies `.strip()`,
so the kept narration `"  Hi."` is not preserved verbatim — the cleaned
text is `"Hi."` and the original prefix no longer occurs in it. -/
theorem c3_counterexample_strip_not_verbatim :
    cleanResponse (lit "  Hi.\nTOOL: python_executor\n```python\nx\n```") = lit "Hi." ∧
    lit "  Hi." ≠ lit "Hi." ∧
    pyContains (cleanResponse (lit "  Hi.\nTOOL: python_executor\n```python\nx\n```"))
      (lit "  Hi.") = false :=
  ⟨by decide, by decide, by decide⟩

/-- C3 amended: the trailing-directive stripper removes only a trailing
suffix beginning at the earliest occurrence of the directive marker
followed by a fenced python block (case-insensitive, with its immediately
preceding newline run); when nothing matches the response is returned
unchanged, and when a match exists the cleaned text is the prefix before
the removal point — preserved up to Python `str.strip()` of that prefix
(leading/trailing whitespace of the kept prefix is trimmed, so not
verbatim). -/
theorem c3_amended_strip_earliest_directive (s : Str) :
    (findTrail s = none → cleanResponse s = s) ∧
    (∀ i, findTrail s = some i →
      cleanResponse s = pyStrip (s.take i) ∧
      ∃ j, trailAt (pyLower s) j = true ∧
        (∀ k, k < j → trailAt (pyLower s) k = false) ∧
        i = j - nlRunBefore s j) := by
  constructor
  · intro h
    unfold cleanResponse reSubTrail
    rw [h]
    simp
  · intro i h
    unfold findTrail at h
    cases hf : firstIdx (fun j => trailAt (pyLower s) j) s.length with
    | none => rw [hf] at h; simp at h
    | some j =>
      rw [hf] at h
      replace h : some (j - nlRunBefore s j) = some i := h
      cases h
      obtain ⟨hjlt, hpj, hmin⟩ := firstIdx_some_spec _ _ _ hf
      have htake : s.take (j - nlRunBefore s j) ≠ s := by
        intro heq
        have hlen := congrArg List.length heq
        rw [List.length_take] at hlen
        omega
      have hre : reSubTrail s = s.take (j - nlRunBefore s j) := by
        unfold reSubTrail findTrail
        rw [hf]
        rfl
      refine ⟨?_, j, hpj, hmin, rfl⟩
      unfold cleanResponse
      rw [hre, if_neg htake]

/-- Witness for C3 amended: a response with no trailing directive is kept
unchanged; a concrete response with a trailing directive is cut at the
earliest marker (position 8, minus the preceding newline) and stripped. -/
theorem c3_amended_witness :
    (findTrail (lit "All good.") = none ∧
     cleanResponse (lit "All good.") = lit "All good.") ∧
    (findTrail (lit "Report.\nTOOL: python_executor\n```python\nx\n```") = some 7 ∧
     (cleanResponse (lit "Report.\nTOOL: python_executor\n```python\nx\n```") =
        pyStrip ((lit "Report.\nTOOL: python_executor\n```python\nx\n```").take 7) ∧
      ∃ j, trailAt (pyLower (lit "Report.\nTOOL: python_executor\n```python\nx\n```")) j = true ∧
        (∀ k, k < j →
          trailAt (pyLower (lit "Report.\nTOOL: python_executor\n```python\nx\n```")) k = false) ∧
        7 = j - nlRunBefore (lit "Report.\nTOOL: python_executor\n```python\nx\n```") j)) :=
  ⟨⟨by decide, (c3_amended_strip_earliest_directive _).1 (by decide)⟩,
   ⟨by decide, (c3_amended_strip_earliest_directive _).2 7 (by decide)⟩⟩
